import Mathlib

/-!
Verification development for the lyra-tool-discovery pipeline.

Shallow embedding of the core modules:
  * `src/schemas.ts`  — Zod schemas validating AI responses (`parseAIResponse`,
    `safeParseAIResponse`);
  * `src/errors.ts`   — the error taxonomy and `isRetryableError` / `getRetryAfter`;
  * the retry module  — `calculateBackoff`, `withRetry`, `fetchWithRetry`;
  * `src/index.ts`    — the `ToolDiscovery.discover` orchestrator (source merge,
    crypto-keyword filter, MCP filter, per-item classification loop, dry-run mode).

JSON values are modelled by an inductive `Json`; JavaScript objects are assoc
lists with unique keys (looked up by first occurrence).  Machine floats in the
backoff computation are modelled over `ℚ` with `Math.random()` passed in as an
explicit rational parameter.  Fallible operations return `Except LyraErr`.
-/

namespace Lyra

/-- JSON value, the shape of `unknown` data handed to the Zod validators. -/
inductive Json where
  | null : Json
  | bool (b : Bool) : Json
  | num (n : Int) : Json
  | str (s : String) : Json
  | arr (elems : List Json) : Json
  | obj (fields : List (String × Json)) : Json
deriving Repr

/-- Field lookup on a JS object: keys of parsed JSON objects are unique, so the
first occurrence is the value. -/
def lookupField (fields : List (String × Json)) (key : String) : Option Json :=
  match fields.find? (fun kv => kv.1 = key) with
  | some kv => some kv.2
  | none => none

/-- `z.string()`. -/
def asString : Json → Option String
  | .str s => some s
  | _ => none

/-- Approximation of Zod's `z.string().url()` (any WHATWG-parsable URL with an
explicit scheme).  None of the theorems below depend on the exact URL grammar. -/
def isUrlLike (s : String) : Bool :=
  match s.splitOn "://" with
  | scheme :: _ :: _ => ¬ scheme.isEmpty
  | _ => false

/-- `z.string().url()`. -/
def asUrlString (j : Json) : Option String := do
  let s ← asString j
  if isUrlLike s then some s else none

/-- `z.array(z.string())`. -/
def asStringArray : Json → Option (List String)
  | .arr elems => elems.mapM asString
  | _ => none

/-- `z.record(z.string())`: an object all of whose values are strings. -/
def asStringRecord : Json → Option (List (String × String))
  | .obj fields => fields.mapM (fun kv => (asString kv.2).map (fun s => (kv.1, s)))
  | _ => none

/-- Required object field: missing or mistyped fails the object. -/
def reqField (fields : List (String × Json)) (key : String)
    (validate : Json → Option α) : Option α := do
  let j ← lookupField fields key
  validate j

/-- Optional object field: absent is fine, present-but-invalid fails the object. -/
def optField (fields : List (String × Json)) (key : String)
    (validate : Json → Option α) : Option (Option α) :=
  match lookupField fields key with
  | none => some none
  | some j => (validate j).map some

/-! ## `src/schemas.ts` — target types -/

/-- `PluginTemplateSchema`: the eight valid plugin templates. -/
inductive PluginTemplate where
  | mcpHttp | mcpStdio | openapi | basic | defaultT | markdown | standalone | settings
deriving Repr, DecidableEq

/-- Auth variants allowed by `MCPHttpConfigSchema`'s `auth.type` enum. -/
inductive AuthType where
  | none | bearer | oauth2
deriving Repr, DecidableEq

/-- The `auth` object of an MCP HTTP connection. -/
structure MCPAuth where
  type : AuthType
  token : Option String
  accessToken : Option String
deriving Repr, DecidableEq

/-- `MCPHttpConfigSchema` (minus the literal `type: 'http'` discriminant). -/
structure MCPHttpConfig where
  url : String
  auth : Option MCPAuth
  headers : Option (List (String × String))
deriving Repr, DecidableEq

/-- `MCPStdioConfigSchema` (minus the literal `type: 'stdio'` discriminant). -/
structure MCPStdioConfig where
  command : String
  args : Option (List String)
  env : Option (List (String × String))
deriving Repr, DecidableEq

/-- `MCPConnectionSchema`: discriminated union on `type`. -/
inductive MCPConnection where
  | http (c : MCPHttpConfig)
  | stdio (c : MCPStdioConfig)
deriving Repr, DecidableEq

/-- `PluginMetaSchema`. -/
structure PluginMeta where
  title : String
  description : String
  avatar : Option String
  tags : Option (List String)
  category : Option String
deriving Repr, DecidableEq

/-- The `customParams` object inside `MCPPluginConfigSchema`. -/
structure MCPCustomParams where
  mcp : MCPConnection
  description : Option String
  avatar : Option String
deriving Repr, DecidableEq

/-- `MCPPluginConfigSchema`. -/
structure MCPPluginConfig where
  identifier : String
  customParams : MCPCustomParams
deriving Repr, DecidableEq

/-- `StandardPluginConfigSchema`. -/
structure StandardPluginConfig where
  identifier : String
  manifest : Option String
  author : Option String
  meta : Option PluginMeta
deriving Repr, DecidableEq

/-- `z.union([MCPPluginConfigSchema, StandardPluginConfigSchema])`. -/
inductive PluginConfig where
  | mcp (c : MCPPluginConfig)
  | standard (c : StandardPluginConfig)
deriving Repr, DecidableEq

/-- `AIAnalysisResponseSchema`: the full AI analysis response. -/
structure AIAnalysisResponse where
  template : PluginTemplate
  reasoning : String
  config : PluginConfig
deriving Repr, DecidableEq

/-! ## `src/schemas.ts` — validators -/

/-- `PluginTemplateSchema.parse` on a JSON value. -/
def validatePluginTemplate : Json → Option PluginTemplate
  | .str "mcp-http" => some .mcpHttp
  | .str "mcp-stdio" => some .mcpStdio
  | .str "openapi" => some .openapi
  | .str "basic" => some .basic
  | .str "default" => some .defaultT
  | .str "markdown" => some .markdown
  | .str "standalone" => some .standalone
  | .str "settings" => some .settings
  | _ => none

/-- The `auth.type` enum `['none', 'bearer', 'oauth2']`. -/
def validateAuthType : Json → Option AuthType
  | .str "none" => some .none
  | .str "bearer" => some .bearer
  | .str "oauth2" => some .oauth2
  | _ => none

/-- The `auth` sub-object of `MCPHttpConfigSchema`. -/
def validateMCPAuth : Json → Option MCPAuth
  | .obj fields => do
    let ty ← reqField fields "type" validateAuthType
    let token ← optField fields "token" asString
    let accessToken ← optField fields "accessToken" asString
    some ⟨ty, token, accessToken⟩
  | _ => none

/-- `MCPHttpConfigSchema` (the discriminant `type: 'http'` is checked by the
discriminated union before this body runs). -/
def validateMCPHttpBody : Json → Option MCPHttpConfig
  | .obj fields => do
    let url ← reqField fields "url" asUrlString
    let auth ← optField fields "auth" validateMCPAuth
    let headers ← optField fields "headers" asStringRecord
    some ⟨url, auth, headers⟩
  | _ => none

/-- `MCPStdioConfigSchema` body. -/
def validateMCPStdioBody : Json → Option MCPStdioConfig
  | .obj fields => do
    let command ← reqField fields "command" asString
    let args ← optField fields "args" asStringArray
    let env ← optField fields "env" asStringRecord
    some ⟨command, args, env⟩
  | _ => none

/-- `MCPConnectionSchema = z.discriminatedUnion('type', [http, stdio])`. -/
def validateMCPConnection : Json → Option MCPConnection
  | .obj fields =>
    match lookupField fields "type" with
    | some (.str "http") => (validateMCPHttpBody (.obj fields)).map .http
    | some (.str "stdio") => (validateMCPStdioBody (.obj fields)).map .stdio
    | _ => none
  | _ => none

/-- `PluginMetaSchema`. -/
def validatePluginMeta : Json → Option PluginMeta
  | .obj fields => do
    let title ← reqField fields "title" asString
    let description ← reqField fields "description" asString
    let avatar ← optField fields "avatar" asString
    let tags ← optField fields "tags" asStringArray
    let category ← optField fields "category" asString
    some ⟨title, description, avatar, tags, category⟩
  | _ => none

/-- The `customParams` sub-object of `MCPPluginConfigSchema`. -/
def validateMCPCustomParams : Json → Option MCPCustomParams
  | .obj fields => do
    let mcp ← reqField fields "mcp" validateMCPConnection
    let description ← optField fields "description" asString
    let avatar ← optField fields "avatar" asString
    some ⟨mcp, description, avatar⟩
  | _ => none

/-- `MCPPluginConfigSchema`. -/
def validateMCPPluginConfig : Json → Option MCPPluginConfig
  | .obj fields => do
    let identifier ← reqField fields "identifier" asString
    let customParams ← reqField fields "customParams" validateMCPCustomParams
    some ⟨identifier, customParams⟩
  | _ => none

/-- `StandardPluginConfigSchema`. -/
def validateStandardPluginConfig : Json → Option StandardPluginConfig
  | .obj fields => do
    let identifier ← reqField fields "identifier" asString
    let manifest ← optField fields "manifest" asString
    let author ← optField fields "author" asString
    let meta ← optField fields "meta" validatePluginMeta
    some ⟨identifier, manifest, author, meta⟩
  | _ => none

/-- `z.union([MCPPluginConfigSchema, StandardPluginConfigSchema])`: variants are
tried in declaration order, first success wins. -/
def validatePluginConfig (j : Json) : Option PluginConfig :=
  match validateMCPPluginConfig j with
  | some c => some (.mcp c)
  | none => (validateStandardPluginConfig j).map .standard

/-- `AIAnalysisResponseSchema`. -/
def validateAIAnalysisResponse : Json → Option AIAnalysisResponse
  | .obj fields => do
    let template ← reqField fields "template" validatePluginTemplate
    let reasoning ← reqField fields "reasoning" asString
    let config ← reqField fields "config" validatePluginConfig
    some ⟨template, reasoning, config⟩
  | _ => none

/-- `parseAIResponse`: `AIAnalysisResponseSchema.parse(data)` — throws (models as
`Except.error`) exactly when the schema rejects. -/
def parseAIResponse (data : Json) : Except String AIAnalysisResponse :=
  match validateAIAnalysisResponse data with
  | some r => .ok r
  | none => .error "ZodError: AIAnalysisResponseSchema"

/-- `safeParseAIResponse`: `AIAnalysisResponseSchema.safeParse(data)`, `null`
(modelled as `none`) on failure. -/
def safeParseAIResponse (data : Json) : Option AIAnalysisResponse :=
  validateAIAnalysisResponse data

/-- `isValidTemplate`. -/
def isValidTemplate (template : String) : Bool :=
  (validatePluginTemplate (.str template)).isSome

/-! ## `src/errors.ts` — error taxonomy -/

/-- The `LyraError` hierarchy as a closed error kind.  `other` stands for any
plain `Error` that is none of the Lyra subclasses. -/
inductive LyraErr where
  | apiKey (provider : String)
  | rateLimit (provider : String) (retryAfter : Option Int)
  | network (url : String) (status : Option Nat)
  | analysis (toolName : String)
  | aiResponse (provider : String)
  | validation (msg : String)
  | other (msg : String)
deriving Repr, DecidableEq

/-- `isRetryableError`: only `RateLimitError` and `NetworkError` instances are
retryable; every other error is not. -/
def isRetryableError : LyraErr → Bool
  | .rateLimit _ _ => true
  | .network _ _ => true
  | _ => false

/-! ## HTTP responses and `getRetryAfter` -/

/-- The slice of a Fetch-API `Response` the pipeline inspects.  Header names are
stored lowercase, as the code queries them. -/
structure HttpResponse where
  status : Nat
  headers : List (String × String)
deriving Repr, DecidableEq

/-- `response.headers.get(name)` (first occurrence). -/
def headerGet (r : HttpResponse) (name : String) : Option String :=
  match r.headers.find? (fun kv => kv.1 = name) with
  | some kv => some kv.2
  | none => none

/-- `response.ok`: status in the 200–299 range. -/
def respOk (r : HttpResponse) : Bool :=
  200 ≤ r.status && r.status ≤ 299

/-- JavaScript `parseInt(s, 10)`: trim, optional sign, longest digit run; `NaN`
(modelled `none`) when no digits follow. -/
def parseIntJS (s : String) : Option Int :=
  let t := s.trim
  let (sign, rest) :=
    if t.startsWith "-" then ((-1 : Int), t.drop 1)
    else if t.startsWith "+" then ((1 : Int), t.drop 1)
    else ((1 : Int), t)
  let digits := rest.takeWhile Char.isDigit
  (digits.toNat?).map (fun n => sign * n)

/-- `getRetryAfter`: prefer the `retry-after` header (seconds), else derive
seconds until the `x-ratelimit-reset` Unix timestamp (ms comparison against
`now`, result rounded up), else nothing. -/
def getRetryAfter (r : HttpResponse) (now : Int) : Option Int :=
  match headerGet r "retry-after" with
  | some ra =>
    match parseIntJS ra with
    | some seconds => some seconds
    | none => matchReset r now
  | none => matchReset r now
where
  /-- The `x-ratelimit-reset` fallback branch of `getRetryAfter`. -/
  matchReset (r : HttpResponse) (now : Int) : Option Int :=
    match headerGet r "x-ratelimit-reset" with
    | some resetAt =>
      match parseIntJS resetAt with
      | some reset =>
        let resetTime := reset * 1000
        if now < resetTime then some ((resetTime - now + 999) / 1000) else none
      | none => none
    | none => none

/-! ## Retry module — `calculateBackoff`, `withRetry`, `fetchWithRetry` -/

/-- `RetryOptions` with the module's defaults. -/
structure RetryOptions where
  maxRetries : Nat := 3
  baseDelayMs : ℚ := 1000
  maxDelayMs : ℚ := 30000
deriving Repr, DecidableEq

/-- `calculateBackoff(attempt, baseDelayMs, maxDelayMs)`; `rand` is the value
of `Math.random()` for this call, a rational in `[0, 1)`.
`delay = floor(min(base * 2^attempt + rand * 0.3 * base * 2^attempt, max))`. -/
def calculateBackoff (attempt : Nat) (baseDelayMs maxDelayMs : ℚ) (rand : ℚ) : ℤ :=
  let exponentialDelay := baseDelayMs * 2 ^ attempt
  let jitter := rand * (3 / 10) * exponentialDelay
  ⌊min (exponentialDelay + jitter) maxDelayMs⌋

/-- Observable outcome of one `withRetry` run: final result, number of times
the wrapped operation was invoked, the sleeps performed (ms), and whether the
max-retries-reached debug line fired before the final rethrow. -/
structure RetryOutcome (α : Type) where
  result : Except LyraErr α
  calls : Nat
  sleeps : List ℤ
  exhausted : Bool
deriving Repr

/-- The `withRetry` loop from `attempt` with `remaining = maxRetries - attempt`
further retries allowed.  `fn` gives the operation's outcome on each attempt;
`rand` the `Math.random()` stream. -/
def withRetryGo (fn : Nat → Except LyraErr α) (baseDelayMs maxDelayMs : ℚ)
    (rand : Nat → ℚ) (attempt : Nat) (remaining : Nat) : RetryOutcome α :=
  match fn attempt with
    | .ok a => ⟨.ok a, 1, [], false⟩
    | .error e =>
      if isRetryableError e then
        match remaining with
        | 0 => ⟨.error e, 1, [], true⟩
        | r + 1 =>
          let delayMs : ℤ :=
            match e with
            | .rateLimit _ (some retryAfter) =>
              if retryAfter ≠ 0 then retryAfter * 1000
              else calculateBackoff attempt baseDelayMs maxDelayMs (rand attempt)
            | _ => calculateBackoff attempt baseDelayMs maxDelayMs (rand attempt)
          let rest := withRetryGo fn baseDelayMs maxDelayMs rand (attempt + 1) r
          ⟨rest.result, rest.calls + 1, delayMs :: rest.sleeps, rest.exhausted⟩
      else ⟨.error e, 1, [], false⟩
termination_by remaining

/-- `withRetry(fn, options)`. -/
def withRetry (fn : Nat → Except LyraErr α) (opts : RetryOptions)
    (rand : Nat → ℚ) : RetryOutcome α :=
  withRetryGo fn opts.baseDelayMs opts.maxDelayMs rand 0 opts.maxRetries

/-- The status-inspection body `fetchWithRetry` wraps in `withRetry`: 429 is
always a `RateLimitError`; 403 is a `RateLimitError` exactly when
`x-ratelimit-remaining` is the string `"0"`; 5xx is a `NetworkError`; anything
else (including other non-ok statuses) is returned as the response. -/
def fetchCheck (url : String) (r : HttpResponse) (now : Int) :
    Except LyraErr HttpResponse :=
  if r.status = 429 then
    .error (.rateLimit "github" (getRetryAfter r now))
  else if r.status = 403 ∧ headerGet r "x-ratelimit-remaining" = some "0" then
    .error (.rateLimit "github" (getRetryAfter r now))
  else if ¬ respOk r ∧ 500 ≤ r.status then
    .error (.network url (some r.status))
  else
    .ok r

/-! ## `src/index.ts` — `ToolDiscovery.discover` -/

/-- The slice of `DiscoveredTool` that `discover` inspects. -/
structure DiscoveredTool where
  id : String
  name : String
  description : String
  source : String
  sourceUrl : String
  readme : Option String
  hasMCPSupport : Bool
deriving Repr, DecidableEq

/-- `CRYPTO_KEYWORDS` from `src/index.ts`. -/
def CRYPTO_KEYWORDS : List String :=
  ["crypto", "cryptocurrency", "defi", "blockchain", "web3",
   "ethereum", "eth", "solana", "sol", "bitcoin", "btc",
   "wallet", "token", "nft", "dex", "swap", "staking",
   "yield", "bridge", "chain", "smart contract", "erc20",
   "erc721", "uniswap", "aave", "compound", "lending",
   "liquidity", "vault", "protocol", "onchain", "on-chain",
   "web3.js", "ethers", "viem", "wagmi", "rainbowkit"]

/-- Substring containment on character lists (JS `String.includes`). -/
def charsContain (hay needle : List Char) : Bool :=
  match hay with
  | [] => needle.isEmpty
  | _ :: t => needle.isPrefixOf hay || charsContain t needle

/-- JS `hay.includes(needle)`. -/
def strIncludes (hay needle : String) : Bool :=
  charsContain hay.toList needle.toList

/-- JS `toLowerCase`, character-wise (ASCII; the crypto keywords are ASCII). -/
def jsToLower (s : String) : String :=
  ⟨s.data.map Char.toLower⟩

/-- JS `slice(0, n)`: the first `n` characters. -/
def jsTake (s : String) (n : Nat) : String :=
  ⟨s.data.take n⟩

/-- `isCryptoRelated(tool)`: lowercase `name + ' ' + description + ' ' + first
5000 chars of readme` contains some crypto keyword (keywords are lowercased by
the code; they already are lowercase). -/
def isCryptoRelated (tool : DiscoveredTool) : Bool :=
  let searchText :=
    jsToLower (tool.name ++ " " ++ tool.description ++ " "
      ++ jsTake (tool.readme.getD "") 5000)
  CRYPTO_KEYWORDS.any (fun keyword => strIncludes searchText (jsToLower keyword))

/-- One entry of the `DiscoveryResult[]` that `discover` returns: the tool, its
decision, and `generated.pluginConfig = decision.config`. -/
structure DiscoveryResult where
  tool : DiscoveredTool
  decision : AIAnalysisResponse
  pluginConfig : PluginConfig
deriving Repr, DecidableEq

/-- Observable outcome of one `discover` run: the returned results, the number
of per-item classification failures logged and excluded, and the number of
`analyzeAndDecide` invocations. -/
structure DiscoverOutcome where
  results : List DiscoveryResult
  excluded : Nat
  classifyCalls : Nat
deriving Repr, DecidableEq

/-- The source-collection loop of `discover`: each per-source search either
yields a list of tools or throws; a thrown error is caught, logged, and the
source contributes nothing.  Lists are appended in request order. -/
def mergedTools (sourceLists : List (Except LyraErr (List DiscoveredTool))) :
    List DiscoveredTool :=
  sourceLists.foldl
    (fun tools s =>
      match s with
      | .ok discovered => tools ++ discovered
      | .error _ => tools)
    []

/-- The per-item classification loop of `discover`.  `classify` is the outcome
of `this.ai.analyzeAndDecide` on each tool.  In dry-run mode every item is
skipped (`continue`) before any classification.  A classification failure is
caught, logged, and the item excluded; the loop continues. -/
def classifyLoop (classify : DiscoveredTool → Except LyraErr AIAnalysisResponse)
    (dryRun : Bool) : List DiscoveredTool → DiscoverOutcome
  | [] => ⟨[], 0, 0⟩
  | tool :: rest =>
    if dryRun then classifyLoop classify dryRun rest
    else
      let tail := classifyLoop classify dryRun rest
      match classify tool with
      | .ok decision =>
        ⟨⟨tool, decision, decision.config⟩ :: tail.results,
          tail.excluded, tail.classifyCalls + 1⟩
      | .error _ =>
        ⟨tail.results, tail.excluded + 1, tail.classifyCalls + 1⟩

/-- `ToolDiscovery.discover`: collect from each source (adapter errors caught),
return early when nothing was discovered, filter to crypto-related tools, then
to MCP-capable tools, truncate to `limit`, and run the classification loop. -/
def discover (classify : DiscoveredTool → Except LyraErr AIAnalysisResponse)
    (sourceLists : List (Except LyraErr (List DiscoveredTool)))
    (limit : Nat) (dryRun : Bool) : DiscoverOutcome :=
  let tools := mergedTools sourceLists
  if tools.isEmpty then ⟨[], 0, 0⟩
  else
    let cryptoTools := tools.filter isCryptoRelated
    let mcpTools := cryptoTools.filter (fun t => t.hasMCPSupport)
    classifyLoop classify dryRun (mcpTools.take limit)

/-- The filtered, capped batch that `discover`'s classification loop iterates:
crypto-related, MCP-capable, first `limit` items. -/
def discoverBatch (sourceLists : List (Except LyraErr (List DiscoveredTool)))
    (limit : Nat) : List DiscoveredTool :=
  (((mergedTools sourceLists).filter isCryptoRelated).filter
      (fun t => t.hasMCPSupport)).take limit

/-! ## Helper lemmas -/

/-- With `dryRun = false` the classification loop returns exactly the
successfully classified items (in order), counts one exclusion per failure, and
calls the classifier once per item. -/
theorem classifyLoop_run (classify : DiscoveredTool → Except LyraErr AIAnalysisResponse)
    (ts : List DiscoveredTool) :
    classifyLoop classify false ts =
      ⟨ts.filterMap (fun t =>
          match classify t with
          | .ok d => some ⟨t, d, d.config⟩
          | .error _ => none),
        (ts.filter (fun t => (classify t).toOption.isNone)).length,
        ts.length⟩ := by
  induction ts with
  | nil => rfl
  | cons t rest ih =>
    simp only [classifyLoop, if_neg (Bool.false_ne_true), ih]
    cases h : classify t <;>
      simp [List.filterMap_cons, List.filter_cons, h, Except.toOption]

/-- With `dryRun = true` the classification loop skips every item. -/
theorem classifyLoop_dry (classify : DiscoveredTool → Except LyraErr AIAnalysisResponse)
    (ts : List DiscoveredTool) :
    classifyLoop classify true ts = ⟨[], 0, 0⟩ := by
  induction ts with
  | nil => rfl
  | cons t rest ih => simpa [classifyLoop] using ih

/-- `discover` is the classification loop run on the filtered, capped batch
(the empty-discovery early return coincides with the loop on the empty batch). -/
theorem discover_eq_classifyLoop
    (classify : DiscoveredTool → Except LyraErr AIAnalysisResponse)
    (sourceLists : List (Except LyraErr (List DiscoveredTool)))
    (limit : Nat) (dryRun : Bool) :
    discover classify sourceLists limit dryRun =
      classifyLoop classify dryRun (discoverBatch sourceLists limit) := by
  unfold discover discoverBatch
  by_cases h : (mergedTools sourceLists).isEmpty
  · rw [List.isEmpty_iff] at h
    simp [h, List.isEmpty_nil]
    cases dryRun
    · rfl
    · rfl
  · simp [h]

/-! ## Claim theorems -/

/-- C10: `safeParseAIResponse` never raises (it is a total function into
`Option`), returns `none` exactly on the inputs where `parseAIResponse`
raises, and on every other input both return the same validated decision. -/
theorem safeParseAIResponse_iff_parseAIResponse (data : Json) :
    (safeParseAIResponse data = none ↔ ∃ msg, parseAIResponse data = .error msg) ∧
    (∀ r : AIAnalysisResponse,
      safeParseAIResponse data = some r ↔ parseAIResponse data = .ok r) := by
  cases h : validateAIAnalysisResponse data <;>
    simp [parseAIResponse, safeParseAIResponse, h]

/-- The deliberately mismatched decision of claim C1: `template` is the HTTP
protocol variant `"mcp-http"` while `config.customParams.mcp` is a `stdio`
descriptor, built over arbitrary identifier, reasoning, and command strings. -/
def protocolMismatchJson (identifier reasoning command : String) : Json :=
  .obj [("template", .str "mcp-http"),
        ("reasoning", .str reasoning),
        ("config", .obj [("identifier", .str identifier),
          ("customParams", .obj [("mcp",
            .obj [("type", .str "stdio"), ("command", .str command)])])])]

/-- C1 counterexample: schema validation via `parseAIResponse` ACCEPTS the
mismatched pair (template `"mcp-http"`, config carrying a `stdio` connection
descriptor) instead of failing: the claimed tagged-union consistency check is
absent from `AIAnalysisResponseSchema`. -/
theorem parseAIResponse_accepts_mismatched_template :
    parseAIResponse (protocolMismatchJson "x" "r" "npx") =
      .ok ⟨.mcpHttp, "r", .mcp ⟨"x", ⟨.stdio ⟨"npx", none, none⟩, none, none⟩⟩⟩ := by
  rfl

/-- C1 amended: `parseAIResponse` validates only the component shapes; for
every identifier, reasoning and command it accepts a decision whose template is
`"mcp-http"` while the config's connection descriptor is tagged `"stdio"` — the
template/descriptor consistency is not checked by the validator. -/
theorem parseAIResponse_ignores_template_descriptor_consistency
    (identifier reasoning command : String) :
    parseAIResponse (protocolMismatchJson identifier reasoning command) =
      .ok ⟨.mcpHttp, reasoning,
        .mcp ⟨identifier, ⟨.stdio ⟨command, none, none⟩, none, none⟩⟩⟩ := by
  rfl

/-- When the operation fails with a retryable error on every attempt, the retry
loop from any position performs one call per remaining attempt plus the first,
ends in the last attempt's error, and fires the max-retries annotation. -/
theorem withRetryGo_always_fail {α : Type}
    (fn : Nat → Except LyraErr α) (errf : Nat → LyraErr)
    (baseDelayMs maxDelayMs : ℚ) (rand : Nat → ℚ)
    (hfn : ∀ n, fn n = .error (errf n))
    (hret : ∀ n, isRetryableError (errf n) = true) :
    ∀ remaining attempt,
      (withRetryGo fn baseDelayMs maxDelayMs rand attempt remaining).calls
          = remaining + 1 ∧
      (withRetryGo fn baseDelayMs maxDelayMs rand attempt remaining).result
          = .error (errf (attempt + remaining)) ∧
      (withRetryGo fn baseDelayMs maxDelayMs rand attempt remaining).exhausted
          = true := by
  intro remaining
  induction remaining with
  | zero =>
    intro attempt
    simp [withRetryGo, hfn, hret]
  | succ r ih =>
    intro attempt
    have h := ih (attempt + 1)
    have hidx : attempt + 1 + r = attempt + (r + 1) := by omega
    rw [hidx] at h
    rw [withRetryGo]
    simp [hfn, hret, h.1, h.2.1, h.2.2]

/-- C3: for every operation that raises a retryable error on every invocation
and every retry policy, `withRetry` invokes the operation exactly
`maxRetries + 1` times, logs the retries-exhausted annotation, and re-raises
the last error rather than swallowing it. -/
theorem withRetry_exhausts_retries {α : Type}
    (fn : Nat → Except LyraErr α) (errf : Nat → LyraErr)
    (opts : RetryOptions) (rand : Nat → ℚ)
    (hfn : ∀ n, fn n = .error (errf n))
    (hret : ∀ n, isRetryableError (errf n) = true) :
    (withRetry fn opts rand).calls = opts.maxRetries + 1 ∧
    (withRetry fn opts rand).result = .error (errf opts.maxRetries) ∧
    (withRetry fn opts rand).exhausted = true := by
  have h := withRetryGo_always_fail fn errf opts.baseDelayMs opts.maxDelayMs
    rand hfn hret opts.maxRetries 0
  simpa [withRetry] using h

/-- An operation that fails with a `NetworkError` on every attempt. -/
def alwaysNetworkFail : Nat → Except LyraErr Unit :=
  fun _ => .error (.network "https://api.github.com" none)

/-- The error stream of `alwaysNetworkFail`. -/
def alwaysNetworkErr : Nat → LyraErr :=
  fun _ => .network "https://api.github.com" none

/-- Witness for C3 at the default policy (`maxRetries = 3`): four invocations,
then the network error is re-raised with the exhausted annotation. -/
theorem withRetry_exhausts_retries_witness :
    (∀ n, alwaysNetworkFail n = .error (alwaysNetworkErr n)) ∧
    (∀ n, isRetryableError (alwaysNetworkErr n) = true) ∧
    (withRetry alwaysNetworkFail {} (fun _ => 0)).calls = 4 ∧
    (withRetry alwaysNetworkFail {} (fun _ => 0)).result
      = .error (.network "https://api.github.com" none) ∧
    (withRetry alwaysNetworkFail {} (fun _ => 0)).exhausted = true := by
  have h := withRetry_exhausts_retries alwaysNetworkFail alwaysNetworkErr {}
    (fun _ => 0) (fun _ => rfl) (fun _ => rfl)
  exact ⟨fun _ => rfl, fun _ => rfl, h.1, h.2.1, h.2.2⟩

/-- C4: an operation whose first invocation raises a non-retryable error (API
key, not-found, or anything that is neither a rate limit nor a network error)
is invoked exactly once under any retry policy; the error propagates
immediately with no sleep. -/
theorem withRetry_nonretryable_single_call {α : Type}
    (fn : Nat → Except LyraErr α) (e : LyraErr)
    (opts : RetryOptions) (rand : Nat → ℚ)
    (hfn : fn 0 = .error e) (hret : isRetryableError e = false) :
    withRetry fn opts rand = ⟨.error e, 1, [], false⟩ := by
  simp [withRetry, withRetryGo, hfn, hret]

/-- An operation that fails immediately with a missing-API-key error. -/
def apiKeyFail : Nat → Except LyraErr Unit :=
  fun _ => .error (.apiKey "openai")

/-- Witness for C4: a mocked `APIKeyError` under the default policy causes a
single invocation, no sleeps, and immediate propagation. -/
theorem withRetry_nonretryable_single_call_witness :
    apiKeyFail 0 = .error (.apiKey "openai") ∧
    isRetryableError (.apiKey "openai") = false ∧
    withRetry apiKeyFail {} (fun _ => 0)
      = ⟨.error (.apiKey "openai"), 1, [], false⟩ :=
  ⟨rfl, rfl, withRetry_nonretryable_single_call apiKeyFail (.apiKey "openai")
    {} (fun _ => 0) rfl rfl⟩

/-- C5: for a fixed policy with `baseDelayMs ≥ 0` and `maxDelayMs ≥ 0`, and the
jitter draw (`Math.random()`) modelled as an arbitrary rational in `[0, 1)` at
each of the two attempts, `calculateBackoff` is non-decreasing in the attempt
number, and its result never exceeds `maxDelayMs`. -/
theorem calculateBackoff_monotone_and_bounded
    (base maxD : ℚ) (hbase : 0 ≤ base) (hmax : 0 ≤ maxD)
    (a1 a2 : Nat) (r1 r2 : ℚ)
    (hr1 : 0 ≤ r1) (hr1' : r1 < 1) (hr2 : 0 ≤ r2) (hr2' : r2 < 1)
    (hlt : a1 < a2) :
    calculateBackoff a1 base maxD r1 ≤ calculateBackoff a2 base maxD r2 ∧
    ∀ (a : Nat) (r : ℚ), (calculateBackoff a base maxD r : ℚ) ≤ maxD := by
  constructor
  · unfold calculateBackoff
    apply Int.floor_mono
    apply min_le_min _ le_rfl
    have he1 : (0 : ℚ) ≤ base * 2 ^ a1 :=
      mul_nonneg hbase (by positivity)
    have he2 : (0 : ℚ) ≤ base * 2 ^ a2 :=
      mul_nonneg hbase (by positivity)
    have hdouble : base * 2 ^ a1 * 2 ≤ base * 2 ^ a2 := by
      have hpow : (2 : ℚ) ^ (a1 + 1) ≤ 2 ^ a2 :=
        pow_le_pow_right₀ (by norm_num) hlt
      calc base * 2 ^ a1 * 2 = base * 2 ^ (a1 + 1) := by ring
        _ ≤ base * 2 ^ a2 := mul_le_mul_of_nonneg_left hpow hbase
    nlinarith [mul_le_mul_of_nonneg_right hr1'.le he1,
      mul_nonneg hr2 he2, mul_nonneg hr1 he1]
  · intro a r
    unfold calculateBackoff
    exact le_trans (Int.floor_le _) (min_le_right _ _)

/-- Witness for C5 at the default policy, attempts 0 < 1, jitter draws 1/2 and
0: the backoff is non-decreasing and bounded by the max delay. -/
theorem calculateBackoff_monotone_and_bounded_witness :
    ((0 : ℚ) ≤ 1000 ∧ (0 : ℚ) ≤ 30000 ∧ (0 : ℚ) ≤ 1 / 2 ∧ (1 / 2 : ℚ) < 1 ∧
      (0 : ℚ) ≤ 0 ∧ (0 : ℚ) < 1 ∧ 0 < 1) ∧
    calculateBackoff 0 1000 30000 (1 / 2) ≤ calculateBackoff 1 1000 30000 0 ∧
    ∀ (a : Nat) (r : ℚ), (calculateBackoff a 1000 30000 r : ℚ) ≤ 30000 := by
  have h := calculateBackoff_monotone_and_bounded 1000 30000 (by norm_num)
    (by norm_num) 0 1 (1 / 2) 0 (by norm_num) (by norm_num) (by norm_num)
    (by norm_num) (by norm_num)
  exact ⟨by norm_num, h.1, h.2⟩

/-- C6: `fetchWithRetry`'s status inspection converts HTTP 429 always into a
retryable rate-limit error; HTTP 403 into a retryable rate-limit error exactly
when the `x-ratelimit-remaining` header reads `"0"`; any other 403 is not
converted to an error at all (the response is returned, so permission errors
are never retried). -/
theorem fetchCheck_rate_limit_classification
    (url : String) (now : Int) (r : HttpResponse) :
    (r.status = 429 →
      fetchCheck url r now = .error (.rateLimit "github" (getRetryAfter r now)) ∧
      isRetryableError (.rateLimit "github" (getRetryAfter r now)) = true) ∧
    (r.status = 403 → headerGet r "x-ratelimit-remaining" = some "0" →
      fetchCheck url r now = .error (.rateLimit "github" (getRetryAfter r now)) ∧
      isRetryableError (.rateLimit "github" (getRetryAfter r now)) = true) ∧
    (r.status = 403 → headerGet r "x-ratelimit-remaining" ≠ some "0" →
      fetchCheck url r now = .ok r) := by
  refine ⟨fun h429 => ?_, fun h403 hzero => ?_, fun h403 hnz => ?_⟩
  · simp [fetchCheck, h429, isRetryableError]
  · simp [fetchCheck, h403, hzero, isRetryableError]
  · simp [fetchCheck, h403, hnz, respOk]

/-- Witness for C6: a quota-exhausted 403 is converted to a retryable rate
limit; a plain 403 with no rate-limit headers is returned untouched; a 429 is
converted to a retryable rate limit. -/
theorem fetchCheck_rate_limit_classification_witness :
    (fetchCheck "u" ⟨403, [("x-ratelimit-remaining", "0")]⟩ 0
        = .error (.rateLimit "github"
            (getRetryAfter ⟨403, [("x-ratelimit-remaining", "0")]⟩ 0)) ∧
      isRetryableError (.rateLimit "github"
          (getRetryAfter ⟨403, [("x-ratelimit-remaining", "0")]⟩ 0)) = true) ∧
    fetchCheck "u" ⟨403, []⟩ 0 = .ok ⟨403, []⟩ ∧
    (fetchCheck "u" ⟨429, []⟩ 0
        = .error (.rateLimit "github" (getRetryAfter ⟨429, []⟩ 0)) ∧
      isRetryableError (.rateLimit "github" (getRetryAfter ⟨429, []⟩ 0)) = true) :=
  ⟨(fetchCheck_rate_limit_classification "u" 0
      ⟨403, [("x-ratelimit-remaining", "0")]⟩).2.1 rfl rfl,
    (fetchCheck_rate_limit_classification "u" 0 ⟨403, []⟩).2.2 rfl
      (by simp [headerGet]),
    (fetchCheck_rate_limit_classification "u" 0 ⟨429, []⟩).1 rfl⟩

/-- A crypto-related, MCP-capable tool with the given id: it passes both of
`discover`'s filters. -/
def mkCryptoTool (idStr : String) : DiscoveredTool :=
  ⟨idStr, "tool", "crypto wallet", "github", "https://example.com", none, true⟩

/-- The five-candidate batch of claim C2's scenario. -/
def c2Tools : List DiscoveredTool :=
  [mkCryptoTool "github:1", mkCryptoTool "github:2", mkCryptoTool "github:3",
   mkCryptoTool "github:4", mkCryptoTool "github:5"]

/-- A fixed decision returned for successfully classified tools. -/
def c2Decision : AIAnalysisResponse :=
  ⟨.basic, "simple utility", .standard ⟨"util", none, none, none⟩⟩

/-- A classifier that raises exactly on the third candidate. -/
def c2Classify (t : DiscoveredTool) : Except LyraErr AIAnalysisResponse :=
  if t.id == "github:3" then .error (.analysis t.name) else .ok c2Decision

/-- C2: a per-item classification failure is caught inside the run loop — the
failing item is excluded, every other item is still processed in order, the
exclusion count reported equals the number of failures, and the run completes
(it is a total function, so it never raises for a per-item failure).  In
particular, on 5 filtered candidates where classification of item 3 raises,
`discover` returns exactly 4 results and reports 1 exclusion. -/
theorem discover_partial_batch_failure
    (classify : DiscoveredTool → Except LyraErr AIAnalysisResponse)
    (sourceLists : List (Except LyraErr (List DiscoveredTool))) (limit : Nat) :
    discover classify sourceLists limit false =
      ⟨(discoverBatch sourceLists limit).filterMap (fun t =>
          match classify t with
          | .ok d => some ⟨t, d, d.config⟩
          | .error _ => none),
        ((discoverBatch sourceLists limit).filter
            (fun t => (classify t).toOption.isNone)).length,
        (discoverBatch sourceLists limit).length⟩ ∧
    (discover c2Classify [.ok c2Tools] 10 false).results.length = 4 ∧
    (discover c2Classify [.ok c2Tools] 10 false).excluded = 1 := by
  refine ⟨?_, ?_, ?_⟩
  · rw [discover_eq_classifyLoop, classifyLoop_run]
  · decide
  · decide

/-- A tool appearing identically in two sources' result lists. -/
def dupTool : DiscoveredTool :=
  ⟨"github:x", "t", "defi dex", "github", "https://example.com", none, true⟩

/-- C7 counterexample: merging per-source candidate lists does NOT
deduplicate — the same `id` contributed by two sources appears twice in the
merged list, refuting "the merged list contains each `id` exactly once". -/
theorem mergedTools_duplicate_id_counterexample :
    mergedTools [.ok [dupTool], .ok [dupTool]] = [dupTool, dupTool] ∧
    ((mergedTools [.ok [dupTool], .ok [dupTool]]).filter
        (fun t => t.id == "github:x")).length = 2 := by
  exact ⟨rfl, rfl⟩

/-- C7 amended: the pipeline's merge is plain concatenation — the merged list
is the successful per-source lists joined in the order sources were requested,
preserving each source's insertion order (and, being a pure function, merging
twice on the same inputs yields identical output order); duplicate `id`s are
not removed at this step. -/
theorem mergedTools_concat_in_request_order
    (sourceLists : List (Except LyraErr (List DiscoveredTool))) :
    mergedTools sourceLists = (sourceLists.filterMap Except.toOption).flatten := by
  suffices h : ∀ acc : List DiscoveredTool,
      sourceLists.foldl
        (fun tools s =>
          match s with
          | .ok discovered => tools ++ discovered
          | .error _ => tools) acc
        = acc ++ (sourceLists.filterMap Except.toOption).flatten by
    simpa [mergedTools] using h []
  induction sourceLists with
  | nil => intro acc; simp
  | cons s rest ih =>
    intro acc
    cases s with
    | ok discovered => simp [Except.toOption, ih]
    | error e => simp [Except.toOption, ih]

/-- C8: for every classifier, source outcome, and limit, a dry run performs
zero classification calls and returns an empty result list. -/
theorem discover_dryRun_no_classification
    (classify : DiscoveredTool → Except LyraErr AIAnalysisResponse)
    (sourceLists : List (Except LyraErr (List DiscoveredTool))) (limit : Nat) :
    discover classify sourceLists limit true = ⟨[], 0, 0⟩ := by
  rw [discover_eq_classifyLoop]
  exact classifyLoop_dry classify _

/-- A classifier failing with the systemic missing-credentials error on every
tool. -/
def apiKeyClassify : DiscoveredTool → Except LyraErr AIAnalysisResponse :=
  fun _ => .error (.apiKey "openai")

/-- C9 counterexample: when classification fails with the missing-API-key
error, `discover` does not propagate it — the run completes normally,
converting the failure into a per-item exclusion for EVERY item (here both of
two items) and still invoking the classifier on each subsequent item. -/
theorem discover_apiKeyError_not_propagated :
    discover apiKeyClassify
        [.ok [mkCryptoTool "github:a", mkCryptoTool "github:b"]] 10 false
      = ⟨[], 2, 2⟩ := by
  decide

/-- C9 amended: an `APIKeyError` raised during per-item classification is
caught by the same unconditional per-item handler as any other error: every
item is excluded, the loop continues through the whole batch, and `discover`
returns normally with an empty result list. -/
theorem discover_apiKeyError_per_item_exclusion
    (classify : DiscoveredTool → Except LyraErr AIAnalysisResponse)
    (sourceLists : List (Except LyraErr (List DiscoveredTool))) (limit : Nat)
    (provider : String)
    (h : ∀ t, classify t = .error (.apiKey provider)) :
    (discover classify sourceLists limit false).results = [] ∧
    (discover classify sourceLists limit false).excluded
      = (discoverBatch sourceLists limit).length ∧
    (discover classify sourceLists limit false).classifyCalls
      = (discoverBatch sourceLists limit).length := by
  rw [discover_eq_classifyLoop, classifyLoop_run]
  refine ⟨?_, ?_, rfl⟩
  · simp [h]
  · simp [h, Except.toOption]

/-- Witness for the amended C9 at a concrete run: one crypto MCP tool, a
classifier that always reports the missing key. -/
theorem discover_apiKeyError_per_item_exclusion_witness :
    (∀ t, apiKeyClassify t = .error (.apiKey "openai")) ∧
    (discover apiKeyClassify [.ok [mkCryptoTool "github:c"]] 5 false).results
      = [] ∧
    (discover apiKeyClassify [.ok [mkCryptoTool "github:c"]] 5 false).excluded
      = (discoverBatch [.ok [mkCryptoTool "github:c"]] 5).length ∧
    (discover apiKeyClassify [.ok [mkCryptoTool "github:c"]] 5 false).classifyCalls
      = (discoverBatch [.ok [mkCryptoTool "github:c"]] 5).length := by
  have h := discover_apiKeyError_per_item_exclusion apiKeyClassify
    [.ok [mkCryptoTool "github:c"]] 5 "openai" (fun _ => rfl)
  exact ⟨fun _ => rfl, h.1, h.2.1, h.2.2⟩

end Lyra
